import Mathlib

/-! Shallow embedding of the flashcard server (src/flash_cards.js).

The store is a relational database with three tables: cards, tags, users.
Rows are kept in rowid (insertion) order, so a list models each table, and
SQL statements become list operations:

  WHERE-filters        -> List.filter
  LIMIT 1              -> List.head?
  ORDER BY RANDOM()    -> an explicit choice index k, reduced mod the
                          number of matching rows
  AUTOINCREMENT ids    -> one more than the maximum id in the table

Request handlers are functions from the request parameters and the store to
a response value plus (for writes) the updated store.
-/

namespace FlashCards

/-- A row of the cards table: id, type (tag reference), front text, back
text, known flag (stored as 0/1 in SQLite, modelled as Bool). -/
structure Card where
  id : Nat
  type : Nat
  front : String
  back : String
  known : Bool
  deriving Repr, DecidableEq

/-- A row of the tags table. -/
structure Tag where
  id : Nat
  tagName : String
  deriving Repr, DecidableEq

/-- A row of the users table (password stored in plain text, as in the
source). -/
structure User where
  id : Nat
  username : String
  password : String
  deriving Repr, DecidableEq

/-- The active database file contents: the three tables of the source
schema, each in rowid order. -/
structure Store where
  cards : List Card
  tags : List Tag
  users : List User
  deriving Repr, DecidableEq

/-- Per-browser session state: the authenticated username, if any. -/
structure Session where
  user : Option String
  deriving Repr, DecidableEq

/-- Responses a handler can produce: render a view (with an optional error
message for the login view), redirect, bare status code, or a JSON body. -/
inductive Response where
  | render (view : String) (message : Option String)
  | redirect (path : String)
  | status (code : Nat)
  | jsonError (code : Nat) (msg : String)
  | jsonHint (hint : String)
  deriving Repr, DecidableEq

/-! Query layer: the parameterized statements of flash_cards.js. -/

/-- SELECT id, type, front, back, known FROM cards WHERE id = ? LIMIT 1
(function getCardById). -/
def getCardById (card_id : Nat) (s : Store) : Option Card :=
  (s.cards.filter (fun c => c.id == card_id)).head?

/-- SELECT ... FROM cards WHERE type = ? AND known = 0 ORDER BY RANDOM()
LIMIT 1 (function getCard). The index k stands for the random draw. -/
def getCard (type : Nat) (k : Nat) (s : Store) : Option Card :=
  let matching := s.cards.filter (fun c => c.type == type && !c.known)
  matching[k % matching.length]?

/-- SELECT ... FROM cards WHERE type = ? AND known = 1 ORDER BY RANDOM()
LIMIT 1 (function getCardAlreadyKnown). -/
def getCardAlreadyKnown (type : Nat) (k : Nat) (s : Store) : Option Card :=
  let matching := s.cards.filter (fun c => c.type == type && c.known)
  matching[k % matching.length]?

/-- SELECT id, tagName FROM tags WHERE id = ? (function getTagById). -/
def getTagById (tag_id : Nat) (s : Store) : Option Tag :=
  (s.tags.filter (fun t => t.id == tag_id)).head?

/-- AUTOINCREMENT id for the cards table: one more than the largest id. -/
def nextCardId (s : Store) : Nat :=
  s.cards.foldr (fun c m => max c.id m) 0 + 1

/-- Modelled from the spec: the cards table schema lives in data/schema.sql,
which is not among the sources; the INSERT in the /add route names only
(type, front, back), so the known column takes its schema default, which the
spec states is false. -/
def knownDefault : Bool := false

/-- INSERT INTO cards (type, front, back) VALUES (?, ?, ?) (the /add route).
Returns the updated store and the id of the new row (this.lastID). -/
def insertCard (type : Nat) (front back : String) (s : Store) : Store × Nat :=
  let nid := nextCardId s
  ({ s with cards :=
      s.cards ++ [{ id := nid, type := type, front := front, back := back,
                    known := knownDefault }] },
   nid)

/-- DELETE FROM cards WHERE id = ? (the /delete/:card_id route). -/
def deleteCard (card_id : Nat) (s : Store) : Store :=
  { s with cards := s.cards.filter (fun c => !(c.id == card_id)) }

/-- UPDATE cards SET known = 1 WHERE id = ? (the /mark-known route). -/
def setKnownTrue (card_id : Nat) (s : Store) : Store :=
  { s with cards :=
      s.cards.map (fun c => if c.id == card_id then { c with known := true } else c) }

/-! Route GET /mark-known/:card_id/:card_type. -/

/-- Outcome of the mark-known handler: the updated store and where the
client is sent next. -/
structure MarkKnownResult where
  store : Store
  response : Response
  deriving Repr, DecidableEq

/-- Handler for GET /mark-known/:card_id/:card_type: runs the UPDATE with
card_id bound, then redirects to /memorize/ followed by card_type. -/
def markKnownHandler (card_id : Nat) (card_type : String) (s : Store) :
    MarkKnownResult :=
  { store := setKnownTrue card_id s
    response := Response.redirect ("/memorize/" ++ card_type) }

/-! Route GET /filter_cards/:filter_name, statement-text construction.

The route builds the WHERE clause from the path parameter. For the five
named filters a fixed clause is chosen; otherwise the raw parameter text is
concatenated into the statement text (template literal in the source), and
parseInt of the parameter is used only for display. -/

/-- The named filters of the /filter_cards route, in source order. -/
def namedFilters : List (String × String) :=
  [("all", "WHERE 1 = 1"),
   ("general", "WHERE type = 1"),
   ("code", "WHERE type = 2"),
   ("known", "WHERE known = 1"),
   ("unknown", "WHERE known = 0")]

/-- The WHERE clause the route puts into the statement: the fixed clause for
a named filter, else the raw filter name concatenated after WHERE type =. -/
def filterClause (filter_name : String) : String :=
  match (namedFilters.filter (fun p => p.1 == filter_name)).head? with
  | some p => p.2
  | none => "WHERE type = " ++ filter_name

/-- The full statement text the /filter_cards route executes against the
store (whitespace normalised to single spaces). -/
def filterCardsSQL (filter_name : String) : String :=
  "SELECT id, type, front, back, known FROM cards " ++
    filterClause filter_name ++ " ORDER BY id DESC"

/-- Longest leading run of decimal digits of a character list. -/
def leadingDigits : List Char → List Char
  | [] => []
  | c :: cs => if c.isDigit then c :: leadingDigits cs else []

/-- Numeric value of a digit list, most significant digit first. -/
def digitsVal (acc : Nat) : List Char → Nat
  | [] => acc
  | c :: cs => digitsVal (acc * 10 + (c.toNat - 48)) cs

/-- The parseInt call of the route (radix 10, no leading whitespace or radix
prefix, optional minus sign): the value of the longest leading digit run, or
none (NaN) when no digit leads. -/
def jsParseInt (s : String) : Option Int :=
  match s.data with
  | '-' :: rest =>
    match leadingDigits rest with
    | [] => none
    | ds => some (-(digitsVal 0 ds : Int))
  | cs =>
    match leadingDigits cs with
    | [] => none
    | ds => some (digitsVal 0 ds)

/-! Route GET /hint/:card_id. -/

/-- Outcome of the hint route: the response, and whether the external
completion service was invoked while producing it. -/
structure HintOutcome where
  response : Response
  serviceInvoked : Bool
  deriving Repr, DecidableEq

/-- Handler for GET /hint/:card_id. The external completion service is
modelled by svc, mapping the card to the returned hint text; it is only
reached when the card lookup succeeded. -/
def hintHandler (card_id : Nat) (svc : Card → String) (s : Store) :
    HintOutcome :=
  match getCardById card_id s with
  | none => { response := Response.jsonError 404 "Card not found"
              serviceInvoked := false }
  | some card => { response := Response.jsonHint (svc card)
                   serviceInvoked := true }

/-! Route GET /memorize_known/:card_type. -/

/-- Handler for GET /memorize_known with an already-defaulted card_type and
optional card_id (when card_id is present the source passes it, not
card_type, to the known-card lookup). When no card is found, the source
reads tagName off the result of the tag lookup before flashing the notice;
if that lookup returned no row the field access throws, the catch block
runs, and the response is a bare 500 status. -/
def memorizeKnownHandler (card_type : Nat) (card_id : Option Nat) (k : Nat)
    (s : Store) : Response :=
  let card :=
    match card_id with
    | some cid => getCardAlreadyKnown cid k s
    | none => getCardAlreadyKnown card_type k s
  match card with
  | some _ => Response.render "memorize_known" none
  | none =>
    match getTagById card_type s with
    | some _tag => Response.redirect "/show"
    | none => Response.status 500

/-! Route POST /signup. -/

/-- AUTOINCREMENT id for the users table. -/
def nextUserId (users : List User) : Nat :=
  users.foldr (fun u m => max u.id m) 0 + 1

/-- SELECT * FROM users WHERE username = ? (the existence check). -/
def getUsersByUsername (username : String) (s : Store) : List User :=
  s.users.filter (fun u => u.username == username)

/-- Outcome of the signup route: updated store, updated session, response. -/
structure SignupResult where
  store : Store
  session : Session
  response : Response
  deriving Repr, DecidableEq

/-- Handler for POST /signup: if a row with the username exists, re-render
the login view with the username-exists error and change nothing; otherwise
insert the user row, set the session user and redirect to /list_db. -/
def signup (username password : String) (s : Store) (sess : Session) :
    SignupResult :=
  if (getUsersByUsername username s).length > 0 then
    { store := s, session := sess
      response := Response.render "login" (some "Username already exists!") }
  else
    { store := { s with users :=
        s.users ++ [{ id := nextUserId s.users, username := username,
                      password := password }] }
      session := { user := some username }
      response := Response.redirect "/list_db" }

/-! Route GET /load_db/:name. -/

/-- A database file on disk, as far as the load_db route observes it: each
table is present with its rows, or absent. -/
structure DBFile where
  tags : Option (List Tag)
  users : Option (List User)
  deriving Repr, DecidableEq

/-- AUTOINCREMENT id for the tags table. -/
def nextTagId (tags : List Tag) : Nat :=
  tags.foldr (fun t m => max t.id m) 0 + 1

/-- INSERT INTO tags (tagName) VALUES (?) (one seeding insert of initTag). -/
def insertTag (name : String) (tags : List Tag) : List Tag :=
  tags ++ [{ id := nextTagId tags, tagName := name }]

/-- Function initTag: the three seeding inserts, in source order. -/
def initTag (tags : List Tag) : List Tag :=
  insertTag "bookmark" (insertTag "code" (insertTag "general" tags))

/-- CREATE TABLE IF NOT EXISTS users ... (function ensureUsersTable). -/
def ensureUsersTable (f : DBFile) : DBFile :=
  { f with users := some (f.users.getD []) }

/-- Handler for GET /load_db/:name, acting on the target file: ensure the
users table, then probe for the tags table; if absent, create it and run the
seeding inserts; if present, leave it untouched. -/
def loadDb (f : DBFile) : DBFile :=
  let f := ensureUsersTable f
  match f.tags with
  | some _ => f
  | none => { f with tags := some (initTag []) }

/-- The three default tag rows, in id order 1, 2, 3. -/
def defaultTags : List Tag :=
  [{ id := 1, tagName := "general" },
   { id := 2, tagName := "code" },
   { id := 3, tagName := "bookmark" }]

/-! Shared lemmas about list operations. -/

theorem foldr_max_id_le (l : List Card) (c : Card) (h : c ∈ l) :
    c.id ≤ l.foldr (fun c m => max c.id m) 0 := by
  induction l with
  | nil => cases h
  | cons a l ih =>
    rcases List.mem_cons.mp h with rfl | hmem
    · exact Nat.le_max_left _ _
    · exact le_trans (ih hmem) (Nat.le_max_right _ _)

theorem nextCardId_fresh (s : Store) (c : Card) (h : c ∈ s.cards) :
    c.id ≠ nextCardId s := by
  have := foldr_max_id_le s.cards c h
  unfold nextCardId
  omega

theorem head?_filter_spec (p : Card → Bool) (l : List Card) (c : Card)
    (h : (l.filter p).head? = some c) : c ∈ l ∧ p c = true :=
  List.mem_filter.mp (List.mem_of_mem_head? (by simp [h]))

theorem getElem?_filter_spec (p : Card → Bool) (l : List Card) (k : Nat)
    (c : Card) (h : (l.filter p)[k]? = some c) : c ∈ l ∧ p c = true :=
  List.mem_filter.mp (List.getElem?_mem h)

/-! Concrete stores used by witness theorems. -/

/-- A store with no rows in any table. -/
def emptyStore : Store := { cards := [], tags := [], users := [] }

/-- A store holding one unknown card of type 1. -/
def oneCardStore : Store :=
  { cards := [{ id := 1, type := 1, front := "f", back := "b", known := false }]
    tags := []
    users := [] }

/-- The single card of oneCardStore. -/
def theCard : Card := { id := 1, type := 1, front := "f", back := "b", known := false }

/-- A store with no cards and a single tag with id 1, so that type 9 has no
known card and no tag row. -/
def noTagNineStore : Store :=
  { cards := [], tags := [{ id := 1, tagName := "general" }], users := [] }

/-! Claim theorems. -/

/-- Claim C3: getCard (fetchRandomUnknownByType) returns either no row or a
row whose known flag is false and whose type equals the requested type; it
never returns a known row or a row of another type. -/
theorem getCard_only_unknown_of_type (t k : Nat) (s : Store) (c : Card)
    (h : getCard t k s = some c) : c.known = false ∧ c.type = t := by
  unfold getCard at h
  have hspec := getElem?_filter_spec (fun c => c.type == t && !c.known) s.cards _ c h
  have hp := hspec.2
  simp only [Bool.and_eq_true, beq_iff_eq, Bool.not_eq_true'] at hp
  exact ⟨hp.2, hp.1⟩

/-- Witness for claim C3: on a store with one unknown card of type 1, the
lookup returns that card and the invariant evaluates. -/
theorem getCard_only_unknown_of_type_witness :
    getCard 1 0 oneCardStore = some theCard ∧
      (theCard.known = false ∧ theCard.type = 1) :=
  ⟨rfl, getCard_only_unknown_of_type 1 0 oneCardStore theCard rfl⟩

/-- Claim C9: deleting an id with no matching card row completes without
error and leaves the store, in particular the count of cards, unchanged. -/
theorem deleteCard_absent_noop (card_id : Nat) (s : Store)
    (h : ∀ c ∈ s.cards, c.id ≠ card_id) :
    deleteCard card_id s = s ∧
      (deleteCard card_id s).cards.length = s.cards.length := by
  have hself : s.cards.filter (fun c => !(c.id == card_id)) = s.cards :=
    List.filter_eq_self.mpr (fun c hc => by simpa using h c hc)
  unfold deleteCard
  rw [hself]
  exact ⟨rfl, rfl⟩

/-- Witness for claim C9: deleting id 5 from the empty store is a no-op. -/
theorem deleteCard_absent_noop_witness :
    (∀ c ∈ emptyStore.cards, c.id ≠ 5) ∧
      (deleteCard 5 emptyStore = emptyStore ∧
        (deleteCard 5 emptyStore).cards.length = emptyStore.cards.length) :=
  ⟨by simp [emptyStore], deleteCard_absent_noop 5 emptyStore (by simp [emptyStore])⟩

/-- Claim C10: the store produced by the mark-known handler depends only on
card_id; two requests with the same card_id and different card_type values,
from the same start store, produce identical stores. -/
theorem markKnown_store_independent_of_type (card_id : Nat) (t1 t2 : String)
    (s : Store) :
    (markKnownHandler card_id t1 s).store = (markKnownHandler card_id t2 s).store :=
  rfl

/-- Claim C6: loading a database file that lacks a tags table creates the
table and seeds it with exactly the three default tag names in id order
1, 2, 3; when the tags table already exists, its rows are left untouched. -/
theorem loadDb_seeds_default_tags (u : Option (List User)) (tags : List Tag) :
    (loadDb { tags := none, users := u }).tags = some defaultTags ∧
      (loadDb { tags := some tags, users := u }).tags = some tags :=
  ⟨rfl, rfl⟩

/-- Claim C7: requesting a hint for a card id absent from the store yields
the 404 not-found JSON response, and the external completion service is not
invoked. -/
theorem hint_absent_card_404 (card_id : Nat) (svc : Card → String) (s : Store)
    (h : getCardById card_id s = none) :
    hintHandler card_id svc s =
      { response := Response.jsonError 404 "Card not found"
        serviceInvoked := false } := by
  unfold hintHandler
  rw [h]

/-- Witness for claim C7: id 1 is absent from the empty store, and the hint
route answers 404 without invoking the service. -/
theorem hint_absent_card_404_witness :
    getCardById 1 emptyStore = none ∧
      hintHandler 1 (fun _ => "hint") emptyStore =
        { response := Response.jsonError 404 "Card not found"
          serviceInvoked := false } :=
  ⟨rfl, hint_absent_card_404 1 (fun _ => "hint") emptyStore rfl⟩

/-- Claim C1, refuted as stated: for a filter name that is none of the five
named filters and is not parseable as a number, the statement text the
route executes contains the raw filter name verbatim, concatenated into the
query text. -/
theorem filterCards_interpolates_raw_name :
    (∀ p ∈ namedFilters, p.1 ≠ "x OR known = 1") ∧
      jsParseInt "x OR known = 1" = none ∧
      filterCardsSQL "x OR known = 1" =
        "SELECT id, type, front, back, known FROM cards WHERE type = " ++
          "x OR known = 1" ++ " ORDER BY id DESC" :=
  ⟨by decide, by decide, rfl⟩

/-- Claim C2: adding a card via the /add route and then fetching the new row
by its returned id yields a card with the same type, front and back, and
with known false. -/
theorem insertCard_roundtrip (type : Nat) (front back : String) (s : Store) :
    getCardById (insertCard type front back s).2 (insertCard type front back s).1 =
      some { id := nextCardId s, type := type, front := front, back := back,
             known := false } := by
  have hnil : s.cards.filter (fun c => c.id == nextCardId s) = [] :=
    List.filter_eq_nil_iff.mpr (fun c hc => by
      simpa using nextCardId_fresh s c hc)
  simp [insertCard, getCardById, List.filter_append, hnil, knownDefault]

/-- Rows carrying the updated id after the mark-known UPDATE have their
known flag set. -/
theorem setKnownTrue_flag (card_id : Nat) (s : Store) (c : Card)
    (hc : c ∈ (setKnownTrue card_id s).cards) (hid : c.id = card_id) :
    c.known = true := by
  unfold setKnownTrue at hc
  rcases List.mem_map.mp hc with ⟨a, _, hfa⟩
  by_cases hcase : a.id = card_id
  · rw [if_pos (by simpa using hcase)] at hfa
    rw [← hfa]
  · rw [if_neg (by simpa using hcase)] at hfa
    subst hfa
    exact absurd hid hcase

/-- Claim C4: after the mark-known update for a card id present in the
store, fetching by that id reports known true; every row with that id now
has the flag set; and in any store state where every row with that id keeps
the flag set, the random-unknown lookup never returns that card for any type
and any draw — so the card stays out of those results until a later
operation clears the flag. -/
theorem markKnown_card_invariant (card_id : Nat) (s : Store)
    (h : ∃ c ∈ s.cards, c.id = card_id) :
    (∃ c, getCardById card_id (setKnownTrue card_id s) = some c ∧ c.known = true) ∧
    (∀ c ∈ (setKnownTrue card_id s).cards, c.id = card_id → c.known = true) ∧
    (∀ s' : Store, (∀ c ∈ s'.cards, c.id = card_id → c.known = true) →
      ∀ t k c, getCard t k s' = some c → c.id ≠ card_id) := by
  refine ⟨?_, fun c hc hid => setKnownTrue_flag card_id s c hc hid, ?_⟩
  · rcases h with ⟨c0, hc0, hid0⟩
    have hmem : ({ c0 with known := true } : Card) ∈ (setKnownTrue card_id s).cards := by
      unfold setKnownTrue
      refine List.mem_map.mpr ⟨c0, hc0, ?_⟩
      simp [hid0]
    have hmemfilter : ({ c0 with known := true } : Card) ∈
        (setKnownTrue card_id s).cards.filter (fun c => c.id == card_id) :=
      List.mem_filter.mpr ⟨hmem, by simpa using hid0⟩
    cases hh : ((setKnownTrue card_id s).cards.filter (fun c => c.id == card_id)).head? with
    | none =>
      rw [List.head?_eq_none_iff] at hh
      rw [hh] at hmemfilter
      cases hmemfilter
    | some c =>
      have hcf := head?_filter_spec (fun c => c.id == card_id)
        (setKnownTrue card_id s).cards c hh
      exact ⟨c, hh, setKnownTrue_flag card_id s c hcf.1 (by simpa using hcf.2)⟩
  · intro s' hall t k c hgc hidc
    unfold getCard at hgc
    have hm := getElem?_filter_spec (fun c => c.type == t && !c.known) s'.cards _ c hgc
    have hknown : c.known = false := by
      have hp := hm.2
      simp only [Bool.and_eq_true, Bool.not_eq_true'] at hp
      exact hp.2
    have htrue := hall c hm.1 hidc
    rw [htrue] at hknown
    cases hknown

/-- Witness for claim C4: the single card of oneCardStore has id 1; marking
it known makes the invariant evaluate. -/
theorem markKnown_card_invariant_witness :
    (∃ c ∈ oneCardStore.cards, c.id = 1) ∧
      ((∃ c, getCardById 1 (setKnownTrue 1 oneCardStore) = some c ∧ c.known = true) ∧
       (∀ c ∈ (setKnownTrue 1 oneCardStore).cards, c.id = 1 → c.known = true) ∧
       (∀ s' : Store, (∀ c ∈ s'.cards, c.id = 1 → c.known = true) →
         ∀ t k c, getCard t k s' = some c → c.id ≠ 1)) :=
  ⟨by decide, markKnown_card_invariant 1 oneCardStore (by decide)⟩

/-- Claim C8: signing up with a username not present in the users table
inserts exactly one user row and sets the session user; a second signup with
the same username fails with the username-exists error, inserts nothing, and
leaves the users table unchanged. -/
theorem signup_fresh_then_duplicate (username p1 p2 : String) (s : Store)
    (sess : Session) (h : ∀ u ∈ s.users, u.username ≠ username) :
    signup username p1 s sess =
      { store := { s with users := s.users ++
          [{ id := nextUserId s.users, username := username, password := p1 }] }
        session := { user := some username }
        response := Response.redirect "/list_db" } ∧
    ∀ sess2 : Session,
      signup username p2
          { s with users := s.users ++
            [{ id := nextUserId s.users, username := username, password := p1 }] }
          sess2 =
        { store := { s with users := s.users ++
            [{ id := nextUserId s.users, username := username, password := p1 }] }
          session := sess2
          response := Response.render "login" (some "Username already exists!") } := by
  have hnil : s.users.filter (fun u => u.username == username) = [] :=
    List.filter_eq_nil_iff.mpr (fun u hu => by simpa using h u hu)
  constructor
  · unfold signup getUsersByUsername
    rw [hnil]
    rfl
  · intro sess2
    unfold signup getUsersByUsername
    simp [List.filter_append, hnil]

/-- Witness for claim C8: on the empty store, signing up alice succeeds and
a second alice signup is rejected without changing the table. -/
theorem signup_fresh_then_duplicate_witness :
    (∀ u ∈ emptyStore.users, u.username ≠ "alice") ∧
      (signup "alice" "pw1" emptyStore { user := none } =
        { store := { emptyStore with users := emptyStore.users ++
            [{ id := nextUserId emptyStore.users, username := "alice",
               password := "pw1" }] }
          session := { user := some "alice" }
          response := Response.redirect "/list_db" } ∧
       ∀ sess2 : Session,
         signup "alice" "pw1"
             { emptyStore with users := emptyStore.users ++
               [{ id := nextUserId emptyStore.users, username := "alice",
                  password := "pw1" }] }
             sess2 =
           { store := { emptyStore with users := emptyStore.users ++
               [{ id := nextUserId emptyStore.users, username := "alice",
                  password := "pw1" }] }
             session := sess2
             response := Response.render "login" (some "Username already exists!") }) :=
  ⟨by simp [emptyStore],
   signup_fresh_then_duplicate "alice" "pw1" "pw1" emptyStore { user := none }
     (by simp [emptyStore])⟩

/-- Claim C5, refuted as stated: with no known card of type 9 and no tag row
with id 9, the memorize_known handler produces a bare 500 status instead of
an informational notice with a redirect. -/
theorem memorizeKnown_absent_tag_500 :
    memorizeKnownHandler 9 none 0 noTagNineStore = Response.status 500 :=
  rfl

end FlashCards
